import Mathlib

/-!
Shallow embedding of src/server.py (yt-transcript-mcp): identifier
extraction, the two caption backends, the two metadata backends, the
transcript formatter, the markdown document builder and the orchestrating
tool handler.  External effects (the captioning service, subprocesses,
the file system, HTTP) are represented by explicit oracle values that
describe what the outside world returns; the control flow and the data
transformations are translated from the Python source.  Machine floats
are modelled as rationals.
-/

namespace YtMcp

/-- Whitespace set removed by the Python str.strip method. -/
def pyWs (c : Char) : Bool :=
  c == ' ' || c == '\t' || c == '\n' || c == '\r' || c == '\x0B' || c == '\x0C'

/-- Python str.strip on a character list. -/
def pyStrip (cs : List Char) : List Char :=
  ((cs.dropWhile pyWs).reverse.dropWhile pyWs).reverse

/-- Character class of the video id alphabet in server.py. -/
def idChar (c : Char) : Bool :=
  c.isLower || c.isUpper || c.isDigit || c == '_' || c == '-'

/-- An 11 character token over the id alphabet. -/
def IsVid (cs : List Char) : Prop :=
  cs.length = 11 ∧ ∀ c ∈ cs, idChar c = true

instance (cs : List Char) : Decidable (IsVid cs) := by
  unfold IsVid; exact inferInstance

/-- Match a literal pattern at the head of the input, returning the rest. -/
def matchLit : List Char → List Char → Option (List Char)
  | [], cs => some cs
  | _ :: _, [] => none
  | p :: ps, c :: cs => if c = p then matchLit ps cs else none

/-- Capture group of the URL regex: exactly 11 characters of the id alphabet. -/
def takeId11 (cs : List Char) : Option (List Char) :=
  if (cs.take 11).length = 11 ∧ ∀ c ∈ cs.take 11, idChar c = true then
    some (cs.take 11)
  else none

/-- Attempt the regex fragment consisting of the literal v= followed by the
capture group, at this exact position. -/
def tryVEqHere : List Char → Option (List Char)
  | c1 :: c2 :: rest => if c1 = 'v' ∧ c2 = '=' then takeId11 rest else none
  | _ => none

/-- Backtracking of the greedy dot-star in the first alternative of the URL
regex: prefer the rightmost position where v= and the capture group match,
never letting the dot-star cross a newline. -/
def greedySearch : List Char → Option (List Char)
  | [] => none
  | c :: rest =>
    (if c = '\n' then none else greedySearch rest) <|> tryVEqHere (c :: rest)

/-- First alternative of the URL regex in server.py. -/
def altWatch (cs : List Char) : Option (List Char) :=
  match matchLit "youtube.com/watch?".data cs with
  | some rest => greedySearch rest
  | none => none

/-- Second alternative of the URL regex in server.py. -/
def altBe (cs : List Char) : Option (List Char) :=
  match matchLit "youtu.be/".data cs with
  | some rest => takeId11 rest
  | none => none

/-- Third alternative of the URL regex in server.py. -/
def altEmbed (cs : List Char) : Option (List Char) :=
  match matchLit "youtube.com/embed/".data cs with
  | some rest => takeId11 rest
  | none => none

/-- Fourth alternative of the URL regex in server.py. -/
def altV (cs : List Char) : Option (List Char) :=
  match matchLit "youtube.com/v/".data cs with
  | some rest => takeId11 rest
  | none => none

/-- Fifth alternative of the URL regex in server.py. -/
def altShorts (cs : List Char) : Option (List Char) :=
  match matchLit "youtube.com/shorts/".data cs with
  | some rest => takeId11 rest
  | none => none

/-- Ordered alternation of the URL regex at one start position. -/
def tryAlts (cs : List Char) : Option (List Char) :=
  altWatch cs <|> altBe cs <|> altEmbed cs <|> altV cs <|> altShorts cs

/-- The re.search scan: try each start position from the left. -/
def searchFrom : List Char → Option (List Char)
  | [] => none
  | c :: cs => tryAlts (c :: cs) <|> searchFrom cs

/-- Translation of the function _extract_video_id of server.py.  A none
result models the ValueError raise for an invalid identifier. -/
def _extract_video_id (url_or_id : String) : Option String :=
  match searchFrom (pyStrip url_or_id.data) with
  | some g => some (String.mk g)
  | none =>
    if (pyStrip url_or_id.data).length = 11 ∧ ∀ c ∈ pyStrip url_or_id.data, idChar c = true then
      some (String.mk (pyStrip url_or_id.data))
    else none

/-- Round half to even, the rounding mode of the Python round builtin. -/
def pyRoundHalfEven (q : ℚ) : ℤ :=
  if q - (⌊q⌋ : ℚ) < 1 / 2 then ⌊q⌋
  else if (1 : ℚ) / 2 < q - (⌊q⌋ : ℚ) then ⌊q⌋ + 1
  else if 2 ∣ ⌊q⌋ then ⌊q⌋ else ⌊q⌋ + 1

/-- Python round(x, 2) on the rational model of floats. -/
def pyRound2 (q : ℚ) : ℚ := (pyRoundHalfEven (q * 100) : ℚ) / 100

/-- Python int(x): truncation toward zero. -/
def pyInt (q : ℚ) : ℤ := if 0 ≤ q then ⌊q⌋ else ⌈q⌉

/-- Python x % m for a positive modulus m: remainder of floor division. -/
def pyMod (a m : ℚ) : ℚ := a - m * (⌊a / m⌋ : ℚ)

/-- Python format specifier 02d applied to an integer. -/
def pad2Int (n : ℤ) : String :=
  if 0 ≤ n ∧ n < 10 then "0" ++ toString n else toString n

/-- One transcript entry: text with a start offset and a duration in
seconds, as in the dictionaries built by both caption backends. -/
structure TranscriptEntry where
  text : String
  start : ℚ
  duration : ℚ
  deriving DecidableEq, Repr

/-- The normalized dictionary returned by a successful caption backend. -/
structure TranscriptResult where
  entries : List TranscriptEntry
  language : String
  source : String
  deriving DecidableEq, Repr

/-- One transcript object of the captioning service client, with the
timed entries its fetch method would yield. -/
structure Transcript where
  language_code : String
  is_generated : Bool
  entries : List TranscriptEntry
  deriving DecidableEq, Repr

/-- Oracle for the captioning service list_transcripts response: lookup of
a manual or a generated transcript per language code, and the enumeration
order of the available transcripts.  A lookup returning none models the
exception raised when no such transcript exists. -/
structure TranscriptList where
  find_manually_created_transcript : String → Option Transcript
  find_generated_transcript : String → Option Transcript
  available : List Transcript

/-- Entries of transcript.fetch() after the rounding applied in
_get_transcript_via_api. -/
def fetchEntries (t : Transcript) : List TranscriptEntry :=
  t.entries.map fun e =>
    { text := e.text, start := pyRound2 e.start, duration := pyRound2 e.duration }

/-- The for loop with try, break and continue used twice in
_get_transcript_via_api: first language whose lookup succeeds. -/
def findFirstLang (f : String → Option Transcript) : List String → Option (String × Transcript)
  | [] => none
  | l :: ls =>
    match f l with
    | some t => some (l, t)
    | none => findFirstLang f ls

/-- Translation of _get_transcript_via_api of server.py: manual lookup per
requested language first, then generated lookup per requested language,
then the first available transcript of any kind, else a RuntimeError. -/
def _get_transcript_via_api (tl : TranscriptList) (video_id : String)
    (languages : List String) : Except String TranscriptResult :=
  match findFirstLang tl.find_manually_created_transcript languages with
  | some (l, t) => .ok { entries := fetchEntries t, language := l, source := "manual" }
  | none =>
    match findFirstLang tl.find_generated_transcript languages with
    | some (l, t) => .ok { entries := fetchEntries t, language := l, source := "auto-generated" }
    | none =>
      match tl.available with
      | t :: _ =>
        .ok { entries := fetchEntries t, language := t.language_code,
              source := if t.is_generated then "auto-generated" else "manual" }
      | [] =>
        .error ("No transcript available for video " ++ video_id ++
          ". Tried languages: " ++ String.intercalate ", " languages ++
          ". The video may not have captions enabled.")

/-- One segment of a json3 subtitle event. -/
structure SubSeg where
  utf8 : String
  deriving DecidableEq, Repr

/-- One json3 subtitle event: start offset and duration in milliseconds
plus the text segments. -/
structure SubEvent where
  tStartMs : ℤ
  dDurationMs : ℤ
  segs : List SubSeg
  deriving DecidableEq, Repr

/-- A parsed json3 subtitle file. -/
structure SubData where
  events : List SubEvent
  deriving DecidableEq, Repr

/-- Oracle for one yt-dlp subtitle invocation: whether the subprocess
exited with code zero, which subtitle files the glob then finds, and the
result of json.load on the first file (none models a parse exception). -/
structure YtdlpAttempt where
  returncodeZero : Bool
  subFiles : List String
  parsed : Option SubData
  deriving DecidableEq, Repr

/-- Text of one event: the stripped nonempty segments joined by single
spaces, or none when every segment strips to empty. -/
def eventText (ev : SubEvent) : Option String :=
  let parts := ((ev.segs.map fun s => pyStrip s.utf8.data).filter fun t => t ≠ []).map String.mk
  if parts = [] then none else some (String.intercalate " " parts)

/-- Entry built from one json3 event in _get_transcript_via_ytdlp. -/
def eventToEntry (ev : SubEvent) : Option TranscriptEntry :=
  (eventText ev).map fun txt =>
    { text := txt,
      start := pyRound2 ((ev.tStartMs : ℚ) / 1000),
      duration := pyRound2 ((ev.dDurationMs : ℚ) / 1000) }

/-- Observable outcome of the yt-dlp caption backend, recording which
temporary subtitle files are still on disk when control leaves the
function.  The parseError constructor models the json.load exception
propagating out of the function body. -/
inductive YtdlpOutcome where
  | ok (res : TranscriptResult) (tmpLeft : List String)
  | err (msg : String) (tmpLeft : List String)
  | parseError (tmpLeft : List String)
  deriving DecidableEq, Repr

/-- Body of one iteration of the subtitle-flag loop in
_get_transcript_via_ytdlp; none means the loop continues.  On a parse
failure the exception propagates before the cleanup loop runs, so the
subtitle files remain on disk; on success they are removed. -/
def ytdlpStep (flagManual : Bool) (att : YtdlpAttempt) : Option YtdlpOutcome :=
  if !att.returncodeZero then none
  else
    match att.subFiles with
    | [] => none
    | _ :: _ =>
      match att.parsed with
      | none => some (.parseError att.subFiles)
      | some data =>
        some (.ok
          { entries := data.events.filterMap eventToEntry,
            language := "detected",
            source := if flagManual then "manual" else "auto-generated" }
          [])

/-- Translation of _get_transcript_via_ytdlp of server.py: manual subtitle
attempt first, auto-generated attempt second, RuntimeError when the tool
is missing or both attempts fail. -/
def _get_transcript_via_ytdlp (installed : Bool) (attManual attAuto : YtdlpAttempt)
    (video_id : String) (languages : List String) : YtdlpOutcome :=
  if !installed then
    .err "yt-dlp is not installed. Install with: pip install yt-dlp" []
  else
    match ytdlpStep true attManual with
    | some out => out
    | none =>
      match ytdlpStep false attAuto with
      | some out => out
      | none =>
        .err ("yt-dlp could not find subtitles for " ++ video_id ++
          " in languages: " ++ String.intercalate ", " languages) []

/-- The metadata dictionary shape of server.py.  Empty string and none
model absent or falsy values exactly as the truthiness tests of the
builder treat them. -/
structure VideoMetadata where
  title : String
  author : String
  channel_url : String := ""
  upload_date : String := ""
  duration_seconds : Option ℤ := none
  description : String := ""
  view_count : Option ℤ := none
  video_id : String
  deriving DecidableEq, Repr

/-- The placeholder dictionary returned on every metadata failure path. -/
def defaultMeta (video_id : String) : VideoMetadata :=
  { title := "Unknown", author := "Unknown", video_id := video_id }

/-- An info-dump record parsed from the yt-dlp json output; none models
an absent key. -/
structure InfoDict where
  title : Option String := none
  uploader : Option String := none
  channel : Option String := none
  channel_url : Option String := none
  upload_date : Option String := none
  duration : Option ℤ := none
  description : Option String := none
  view_count : Option ℤ := none
  deriving DecidableEq, Repr

/-- Oracle for one _get_metadata_via_ytdlp run: tool presence, whether
the subprocess call returned without raising, its exit status, and the
json.loads result (none models a parse exception). -/
structure MetaOracle where
  installed : Bool
  runOk : Bool
  returncodeZero : Bool
  parsed : Option InfoDict
  deriving DecidableEq, Repr

/-- Translation of _get_metadata_via_ytdlp of server.py.  Every failure
mode is absorbed inside the function and yields the placeholder record. -/
def _get_metadata_via_ytdlp (o : MetaOracle) (video_id : String) : VideoMetadata :=
  if !o.installed then defaultMeta video_id
  else if !o.runOk then defaultMeta video_id
  else if !o.returncodeZero then defaultMeta video_id
  else
    match o.parsed with
    | none => defaultMeta video_id
    | some d =>
      { title := d.title.getD "Unknown"
        author := d.uploader.getD (d.channel.getD "Unknown")
        channel_url := d.channel_url.getD ""
        upload_date := d.upload_date.getD ""
        duration_seconds := d.duration
        description := String.mk ((d.description.getD "").data.take 500)
        view_count := d.view_count
        video_id := video_id }

/-- Calling _get_metadata_via_ytdlp through the exception interface the
orchestrator assumes: every exit path of the Python function is a plain
return statement (all throwing operations occur inside its internal
try blocks), so the call always yields ok. -/
def ytdlpMetaCall (o : MetaOracle) (video_id : String) : Except String VideoMetadata :=
  .ok (_get_metadata_via_ytdlp o video_id)

/-- Metadata section of youtube_get_transcript: the yt-dlp metadata
backend inside try, the page-scrape backend only in its except branch.
The second component records which metadata backends were invoked. -/
def metadataPhase (o : MetaOracle) (scrape : Except String VideoMetadata)
    (video_id : String) (include_metadata : Bool) : VideoMetadata × List String :=
  if include_metadata then
    match ytdlpMetaCall o video_id with
    | .ok m => (m, ["yt-dlp-meta"])
    | .error _ =>
      match scrape with
      | .ok m => (m, ["yt-dlp-meta", "page-scrape"])
      | .error _ => (defaultMeta video_id, ["yt-dlp-meta", "page-scrape"])
  else (defaultMeta video_id, [])

/-- One emitted line of _format_transcript_text: minutes are
int(start // 60), seconds are int(start % 60), both through the 02d
format specifier, then the stripped text. -/
def entryLine (include_timestamps : Bool) (e : TranscriptEntry) : String :=
  if include_timestamps then
    "[" ++ pad2Int ⌊e.start / 60⌋ ++ ":" ++ pad2Int (pyInt (pyMod e.start 60)) ++
      "] " ++ String.mk (pyStrip e.text.data)
  else String.mk (pyStrip e.text.data)

/-- Translation of _format_transcript_text of server.py: the loop body per
entry, accumulating the emitted lines. -/
def formatLines (include_timestamps : Bool) : List TranscriptEntry → List String
  | [] => []
  | e :: rest =>
    if String.mk (pyStrip e.text.data) = "" then formatLines include_timestamps rest
    else entryLine include_timestamps e :: formatLines include_timestamps rest

/-- Formatter line as the specification words it: a marker with MM equal
to floor(start / 60) and SS equal to floor(start mod 60), both padded to
two digits, before the trimmed text.  Kept separate from entryLine so the
translated code can be compared against the specification wording. -/
def specLine (include_timestamps : Bool) (e : TranscriptEntry) : String :=
  if include_timestamps then
    "[" ++ pad2Int ⌊e.start / 60⌋ ++ ":" ++ pad2Int ⌊pyMod e.start 60⌋ ++
      "] " ++ String.mk (pyStrip e.text.data)
  else String.mk (pyStrip e.text.data)

/-- Translation of _format_transcript_text of server.py. -/
def _format_transcript_text (entries : List TranscriptEntry) (include_timestamps : Bool) : String :=
  String.intercalate "\n" (formatLines include_timestamps entries)

/-- Value part of the upload_date frontmatter field: reformatted with
dashes when the raw value has length 8, verbatim otherwise. -/
def uploadDateValue (d : String) : String :=
  if d.length = 8 then
    String.mk (d.data.take 4) ++ "-" ++ String.mk ((d.data.drop 4).take 2) ++ "-" ++
      String.mk (d.data.drop 6)
  else d

/-- Value part of the duration frontmatter field, from divmod by 60. -/
def durationValue (dsec : ℤ) : String :=
  toString (Int.ediv dsec 60) ++ "m" ++ toString (Int.emod dsec 60) ++ "s"

/-- The frontmatter_fields list of _build_markdown_output: six fixed
fields, then the upload_date field when the value is truthy, then the
duration field when the value is truthy. -/
def frontmatterFields (metadata : VideoMetadata) (info : TranscriptResult)
    (video_id : String) : List String :=
  (["title: \"" ++ metadata.title ++ "\"",
    "author: \"" ++ metadata.author ++ "\"",
    "url: " ++ ("https://www.youtube.com/watch?v=" ++ video_id),
    "video_id: " ++ video_id,
    "transcript_language: " ++ info.language,
    "transcript_source: " ++ info.source]
   ++ (if metadata.upload_date ≠ "" then
        ["upload_date: " ++ uploadDateValue metadata.upload_date] else [])
   ++ (match metadata.duration_seconds with
       | some dsec => if dsec ≠ 0 then ["duration: " ++ durationValue dsec] else []
       | none => []))

/-- The document before the size bound, exactly as the f-string of
_build_markdown_output concatenates it. -/
def assembleOutput (metadata : VideoMetadata) (transcript_text : String)
    (info : TranscriptResult) (video_id : String) : String :=
  ("---\n" ++ String.intercalate "\n" (frontmatterFields metadata info video_id) ++ "\n---")
  ++ "\n"
  ++ (if metadata.description ≠ "" then
        "\n## Description\n\n" ++ metadata.description ++ "\n" else "")
  ++ "\n## Transcript\n\n" ++ transcript_text ++ "\n"

/-- The size ceiling MAX_TRANSCRIPT_CHARS of server.py. -/
def MAX_TRANSCRIPT_CHARS : ℕ := 200000

/-- The marker appended after a truncation cut. -/
def TRUNCATION_MARKER : String := "\n\n[... transcript truncated due to length ...]"

/-- The final size bound of _build_markdown_output. -/
def boundOutput (output : String) : String :=
  if MAX_TRANSCRIPT_CHARS < output.length then
    String.mk (output.data.take MAX_TRANSCRIPT_CHARS) ++ TRUNCATION_MARKER
  else output

/-- Translation of _build_markdown_output of server.py. -/
def _build_markdown_output (metadata : VideoMetadata) (transcript_text : String)
    (info : TranscriptResult) (video_id : String) : String :=
  boundOutput (assembleOutput metadata transcript_text info video_id)

/-- The plain-text error form returned when every caption backend fails. -/
def errorOutput (video_id : String) (errors : List String) : String :=
  "Error: Could not retrieve transcript for video " ++ video_id ++ ".\n" ++
  "Attempted methods:\n" ++
  String.intercalate "\n" (errors.map fun e => "  - " ++ e) ++ "\n\n" ++
  "Possible causes:\n  - The video has no captions/subtitles\n" ++
  "  - The video is private or age-restricted\n" ++
  "  - The requested languages are not available"

/-- Caption section of youtube_get_transcript: strategy 1 inside try,
strategy 2 only when strategy 1 failed, each failure appended to the
errors list with its prefix.  Returns the optional result, the errors
list, and the list of caption backends that were invoked. -/
def transcriptPhase (api yt : Except String TranscriptResult) :
    Option TranscriptResult × List String × List String :=
  match api with
  | .ok r => (some r, [], ["youtube-transcript-api"])
  | .error e =>
    match yt with
    | .ok r => (some r, ["youtube-transcript-api: " ++ e],
                ["youtube-transcript-api", "yt-dlp"])
    | .error e2 => (none, ["youtube-transcript-api: " ++ e, "yt-dlp: " ++ e2],
                    ["youtube-transcript-api", "yt-dlp"])

/-- Translation of the tool handler youtube_get_transcript of server.py,
after identifier extraction: caption acquisition, the error form when no
backend produced captions, otherwise formatting, metadata acquisition and
document building.  The trace components record which caption backends
and which metadata backends were invoked. -/
def youtube_get_transcript (api yt : Except String TranscriptResult)
    (mo : MetaOracle) (scrape : Except String VideoMetadata)
    (video_id : String) (include_timestamps include_metadata : Bool) :
    String × List String × List String :=
  match transcriptPhase api yt with
  | (none, errors, cInv) => (errorOutput video_id errors, cInv, [])
  | (some info, _, cInv) =>
    let mp := metadataPhase mo scrape video_id include_metadata
    (_build_markdown_output mp.1
      (_format_transcript_text info.entries include_timestamps) info video_id,
     cInv, mp.2)

/-- Sample manual transcript for concrete instantiations. -/
def tEn : Transcript := { language_code := "en", is_generated := false, entries := [] }

/-- Sample captioning-service oracle: both a manual and a generated
transcript exist for the language en, nothing else. -/
def tlSample : TranscriptList :=
  { find_manually_created_transcript := fun l => if l = "en" then some tEn else none
    find_generated_transcript := fun l =>
      if l = "en" then some { tEn with is_generated := true } else none
    available := [tEn] }

/-- Sample failing yt-dlp attempt. -/
def attFail : YtdlpAttempt := { returncodeZero := false, subFiles := [], parsed := none }

/-- Sample successful auto-generated yt-dlp attempt with an English
subtitle file. -/
def attAutoOk : YtdlpAttempt :=
  { returncodeZero := true,
    subFiles := ["/tmp/yt_vid00000000.en.json3"],
    parsed := some { events := [{ tStartMs := 0, dDurationMs := 1000, segs := [{ utf8 := "hi" }] }] } }

/-- Sample yt-dlp attempt whose subtitle file is not valid json. -/
def attBadJson : YtdlpAttempt :=
  { returncodeZero := true,
    subFiles := ["/tmp/yt_vid00000000.en.json3"],
    parsed := none }

/-- The transcript record produced from attAutoOk. -/
def res8 : TranscriptResult :=
  { entries := [{ text := "hi", start := 0, duration := 1 }],
    language := "detected", source := "auto-generated" }

/-- Sample metadata record a page scrape would return. -/
def richMeta : VideoMetadata :=
  { title := "Scraped Title", author := "Scraped Author", video_id := "vid00000000" }

/-- Sample failing metadata oracle: the tool is missing. -/
def oracleFail : MetaOracle :=
  { installed := false, runOk := false, returncodeZero := false, parsed := none }

/-- Sample metadata record whose upload_date has eight characters that
are not all digits. -/
def meta9 : VideoMetadata :=
  { title := "T", author := "A", upload_date := "abcdefgh", video_id := "vid00000000" }

/-- Sample transcript info record for builder instantiations. -/
def infoSample : TranscriptResult := { entries := [], language := "en", source := "manual" }

/-! ### Helper lemmas about Option and list scanning -/

theorem optOrElse_some {α : Type} (a : α) (y : Option α) : (some a <|> y) = some a := rfl

theorem optOrElse_none {α : Type} (y : Option α) : ((none : Option α) <|> y) = y := rfl

theorem optOrElse_eq_some {α : Type} {x y : Option α} {r : α} (h : (x <|> y) = some r) :
    x = some r ∨ (x = none ∧ y = some r) := by
  cases x with
  | some a => exact Or.inl h
  | none => exact Or.inr ⟨rfl, h⟩

theorem dropWhile_all_false (p : Char → Bool) :
    ∀ l : List Char, (∀ c ∈ l, p c = false) → l.dropWhile p = l
  | [], _ => rfl
  | c :: t, h => by
    rw [List.dropWhile_cons, h c (List.mem_cons_self c t)]
    simp

theorem pyStrip_noWs (cs : List Char) (h : ∀ c ∈ cs, pyWs c = false) : pyStrip cs = cs := by
  unfold pyStrip
  rw [dropWhile_all_false pyWs cs h]
  rw [dropWhile_all_false pyWs cs.reverse (fun c hc => h c (List.mem_reverse.mp hc))]
  exact List.reverse_reverse cs

theorem ws_not_idChar (c : Char) (h : pyWs c = true) : idChar c = false := by
  unfold pyWs at h
  simp only [Bool.or_eq_true, beq_iff_eq] at h
  rcases h with ((((h | h) | h) | h) | h) | h <;> subst h <;> rfl

theorem idChar_not_ws (c : Char) (h : idChar c = true) : pyWs c = false := by
  cases hw : pyWs c with
  | false => rfl
  | true => rw [ws_not_idChar c hw] at h; exact Bool.noConfusion h

/-! ### Lemmas about the embedded URL regex -/

theorem matchLit_cons_ne (p : Char) (ps : List Char) (c : Char) (cs : List Char)
    (h : ¬ c = p) : matchLit (p :: ps) (c :: cs) = none := by
  show (if c = p then matchLit ps cs else none) = none
  rw [if_neg h]

theorem matchLit_self : ∀ (p rest : List Char), matchLit p (p ++ rest) = some rest
  | [], _ => rfl
  | c :: p, rest => by
    show (if c = c then matchLit p (p ++ rest) else none) = some rest
    rw [if_pos rfl]
    exact matchLit_self p rest

theorem matchLit_eq_some : ∀ (p input r : List Char), matchLit p input = some r → input = p ++ r := by
  intro p
  induction p with
  | nil =>
    intro input r h
    have h2 : some input = some r := h
    rw [List.nil_append, Option.some.inj h2]
  | cons c p ih =>
    intro input r h
    cases input with
    | nil => exact Option.noConfusion h
    | cons d input2 =>
      have h2 : (if d = c then matchLit p input2 else none) = some r := h
      by_cases hd : d = c
      · rw [if_pos hd] at h2
        subst hd
        rw [List.cons_append, ih input2 r h2]
      · rw [if_neg hd] at h2
        exact Option.noConfusion h2

theorem matchLit_none_of_bad {pat cs : List Char} (hbad : ∃ c ∈ pat, idChar c = false)
    (hall : ∀ c ∈ cs, idChar c = true) : matchLit pat cs = none := by
  cases hm : matchLit pat cs with
  | none => rfl
  | some r =>
    obtain ⟨c, hcp, hcf⟩ := hbad
    have he : cs = pat ++ r := matchLit_eq_some _ _ _ hm
    have hc : c ∈ cs := by rw [he]; exact List.mem_append_left r hcp
    rw [hall c hc] at hcf
    exact Bool.noConfusion hcf

theorem takeId11_of_isVid (id : List Char) (h : IsVid id) : takeId11 id = some id := by
  have ht : id.take 11 = id := List.take_of_length_le (by rw [h.1])
  unfold takeId11
  rw [ht, if_pos ⟨h.1, h.2⟩]

theorem takeId11_isVid {cs r : List Char} (h : takeId11 cs = some r) : IsVid r := by
  unfold takeId11 at h
  by_cases hc : (cs.take 11).length = 11 ∧ ∀ c ∈ cs.take 11, idChar c = true
  · rw [if_pos hc] at h
    have := Option.some.inj h
    rw [← this]
    exact hc
  · rw [if_neg hc] at h
    exact Option.noConfusion h

theorem tryVEqHere_isVid : ∀ {cs r : List Char}, tryVEqHere cs = some r → IsVid r := by
  intro cs r h
  match cs, h with
  | [], h => exact Option.noConfusion h
  | [c1], h => exact Option.noConfusion h
  | c1 :: c2 :: rest, h =>
    have h2 : (if c1 = 'v' ∧ c2 = '=' then takeId11 rest else none) = some r := h
    by_cases hve : c1 = 'v' ∧ c2 = '='
    · rw [if_pos hve] at h2
      exact takeId11_isVid h2
    · rw [if_neg hve] at h2
      exact Option.noConfusion h2

theorem greedySearch_isVid : ∀ {cs r : List Char}, greedySearch cs = some r → IsVid r := by
  intro cs
  induction cs with
  | nil => intro r h; exact Option.noConfusion h
  | cons c rest ih =>
    intro r h
    have h2 : ((if c = '\n' then none else greedySearch rest) <|> tryVEqHere (c :: rest)) = some r := h
    rcases optOrElse_eq_some h2 with h3 | ⟨_, h3⟩
    · by_cases hn : c = '\n'
      · rw [if_pos hn] at h3
        exact Option.noConfusion h3
      · rw [if_neg hn] at h3
        exact ih h3
    · exact tryVEqHere_isVid h3

theorem greedySearch_none : ∀ (cs : List Char),
    (∀ s, s <:+ cs → tryVEqHere s = none) → greedySearch cs = none := by
  intro cs
  induction cs with
  | nil => intro _; rfl
  | cons c rest ih =>
    intro h
    have h1 : tryVEqHere (c :: rest) = none := h _ (List.suffix_refl _)
    have h2 : greedySearch rest = none :=
      ih (fun s hs => h s (hs.trans (List.suffix_cons c rest)))
    show ((if c = '\n' then none else greedySearch rest) <|> tryVEqHere (c :: rest)) = none
    rw [h1, h2]
    by_cases hn : c = '\n' <;> simp [hn]

theorem tryVEqHere_none_of_idChars :
    ∀ (s : List Char), (∀ c ∈ s.drop 1, idChar c = true) → tryVEqHere s = none
  | [], _ => rfl
  | [_], _ => rfl
  | c1 :: c2 :: rest, h => by
    have hc2 : idChar c2 = true := h c2 (by simp)
    have hne : ¬ (c1 = 'v' ∧ c2 = '=') := by
      rintro ⟨_, rfl⟩
      exact absurd hc2 (by decide)
    show (if c1 = 'v' ∧ c2 = '=' then takeId11 rest else none) = none
    rw [if_neg hne]

theorem greedySearch_veq (id : List Char) (h : IsVid id) :
    greedySearch ('v' :: '=' :: id) = some id := by
  have h1 : greedySearch ('=' :: id) = none := by
    apply greedySearch_none
    intro s hs
    apply tryVEqHere_none_of_idChars
    intro c hc
    apply h.2
    rcases List.suffix_cons_iff.mp hs with rfl | hs2
    · simpa using hc
    · exact hs2.subset ((List.drop_suffix 1 s).subset hc)
  show ((if 'v' = '\n' then none else greedySearch ('=' :: id)) <|> tryVEqHere ('v' :: '=' :: id)) = some id
  rw [h1, if_neg (by decide : ¬ ('v' = '\n')), optOrElse_none]
  show (if 'v' = 'v' ∧ '=' = '=' then takeId11 id else none) = some id
  rw [if_pos ⟨rfl, rfl⟩]
  exact takeId11_of_isVid id h

theorem altWatch_ne_y {c : Char} (cs : List Char) (h : ¬ c = 'y') : altWatch (c :: cs) = none := by
  unfold altWatch
  rw [show ("youtube.com/watch?".data) = 'y' :: "outube.com/watch?".data from rfl,
      matchLit_cons_ne _ _ _ _ h]

theorem altBe_ne_y {c : Char} (cs : List Char) (h : ¬ c = 'y') : altBe (c :: cs) = none := by
  unfold altBe
  rw [show ("youtu.be/".data) = 'y' :: "outu.be/".data from rfl,
      matchLit_cons_ne _ _ _ _ h]

theorem altEmbed_ne_y {c : Char} (cs : List Char) (h : ¬ c = 'y') : altEmbed (c :: cs) = none := by
  unfold altEmbed
  rw [show ("youtube.com/embed/".data) = 'y' :: "outube.com/embed/".data from rfl,
      matchLit_cons_ne _ _ _ _ h]

theorem altV_ne_y {c : Char} (cs : List Char) (h : ¬ c = 'y') : altV (c :: cs) = none := by
  unfold altV
  rw [show ("youtube.com/v/".data) = 'y' :: "outube.com/v/".data from rfl,
      matchLit_cons_ne _ _ _ _ h]

theorem altShorts_ne_y {c : Char} (cs : List Char) (h : ¬ c = 'y') : altShorts (c :: cs) = none := by
  unfold altShorts
  rw [show ("youtube.com/shorts/".data) = 'y' :: "outube.com/shorts/".data from rfl,
      matchLit_cons_ne _ _ _ _ h]

theorem tryAlts_ne_y (c : Char) (cs : List Char) (h : ¬ c = 'y') : tryAlts (c :: cs) = none := by
  unfold tryAlts
  rw [altWatch_ne_y cs h, optOrElse_none, altBe_ne_y cs h, optOrElse_none,
      altEmbed_ne_y cs h, optOrElse_none, altV_ne_y cs h, optOrElse_none,
      altShorts_ne_y cs h]

theorem searchFrom_cons_ne_y (c : Char) (cs : List Char) (h : ¬ c = 'y') :
    searchFrom (c :: cs) = searchFrom cs := by
  show (tryAlts (c :: cs) <|> searchFrom cs) = searchFrom cs
  rw [tryAlts_ne_y c cs h, optOrElse_none]

theorem searchFrom_append_no_y : ∀ (pre cs : List Char), (∀ c ∈ pre, ¬ c = 'y') →
    searchFrom (pre ++ cs) = searchFrom cs
  | [], _, _ => rfl
  | c :: pre, cs, h => by
    rw [List.cons_append, searchFrom_cons_ne_y c _ (h c (List.mem_cons_self c pre))]
    exact searchFrom_append_no_y pre cs (fun d hd => h d (List.mem_cons_of_mem c hd))

theorem searchFrom_of_tryAlts_some {cs r : List Char} (h : tryAlts cs = some r) :
    searchFrom cs = some r := by
  cases cs with
  | nil =>
    have h0 : tryAlts [] = none := rfl
    rw [h0] at h
    exact Option.noConfusion h
  | cons c cs2 =>
    show (tryAlts (c :: cs2) <|> searchFrom cs2) = some r
    rw [h, optOrElse_some]

theorem altWatch_isVid {cs r : List Char} (h : altWatch cs = some r) : IsVid r := by
  unfold altWatch at h
  cases hm : matchLit "youtube.com/watch?".data cs with
  | none => rw [hm] at h; exact Option.noConfusion h
  | some rest => rw [hm] at h; exact greedySearch_isVid h

theorem altBe_isVid {cs r : List Char} (h : altBe cs = some r) : IsVid r := by
  unfold altBe at h
  cases hm : matchLit "youtu.be/".data cs with
  | none => rw [hm] at h; exact Option.noConfusion h
  | some rest => rw [hm] at h; exact takeId11_isVid h

theorem altEmbed_isVid {cs r : List Char} (h : altEmbed cs = some r) : IsVid r := by
  unfold altEmbed at h
  cases hm : matchLit "youtube.com/embed/".data cs with
  | none => rw [hm] at h; exact Option.noConfusion h
  | some rest => rw [hm] at h; exact takeId11_isVid h

theorem altV_isVid {cs r : List Char} (h : altV cs = some r) : IsVid r := by
  unfold altV at h
  cases hm : matchLit "youtube.com/v/".data cs with
  | none => rw [hm] at h; exact Option.noConfusion h
  | some rest => rw [hm] at h; exact takeId11_isVid h

theorem altShorts_isVid {cs r : List Char} (h : altShorts cs = some r) : IsVid r := by
  unfold altShorts at h
  cases hm : matchLit "youtube.com/shorts/".data cs with
  | none => rw [hm] at h; exact Option.noConfusion h
  | some rest => rw [hm] at h; exact takeId11_isVid h

theorem tryAlts_isVid {cs r : List Char} (h : tryAlts cs = some r) : IsVid r := by
  unfold tryAlts at h
  rcases optOrElse_eq_some h with h1 | ⟨_, h1⟩
  · exact altWatch_isVid h1
  rcases optOrElse_eq_some h1 with h2 | ⟨_, h2⟩
  · exact altBe_isVid h2
  rcases optOrElse_eq_some h2 with h3 | ⟨_, h3⟩
  · exact altEmbed_isVid h3
  rcases optOrElse_eq_some h3 with h4 | ⟨_, h4⟩
  · exact altV_isVid h4
  · exact altShorts_isVid h4

theorem searchFrom_isVid : ∀ {cs r : List Char}, searchFrom cs = some r → IsVid r := by
  intro cs
  induction cs with
  | nil => intro r h; exact Option.noConfusion h
  | cons c cs2 ih =>
    intro r h
    have h2 : (tryAlts (c :: cs2) <|> searchFrom cs2) = some r := h
    rcases optOrElse_eq_some h2 with h3 | ⟨_, h3⟩
    · exact tryAlts_isVid h3
    · exact ih h3

theorem tryAlts_none_of_idChars (cs : List Char) (hall : ∀ c ∈ cs, idChar c = true) :
    tryAlts cs = none := by
  have hW : altWatch cs = none := by
    unfold altWatch
    rw [matchLit_none_of_bad (by decide) hall]
  have hB : altBe cs = none := by
    unfold altBe
    rw [matchLit_none_of_bad (by decide) hall]
  have hE : altEmbed cs = none := by
    unfold altEmbed
    rw [matchLit_none_of_bad (by decide) hall]
  have hV : altV cs = none := by
    unfold altV
    rw [matchLit_none_of_bad (by decide) hall]
  have hS : altShorts cs = none := by
    unfold altShorts
    rw [matchLit_none_of_bad (by decide) hall]
  unfold tryAlts
  rw [hW, optOrElse_none, hB, optOrElse_none, hE, optOrElse_none, hV, optOrElse_none, hS]

theorem searchFrom_none_of_idChars :
    ∀ (cs : List Char), (∀ c ∈ cs, idChar c = true) → searchFrom cs = none
  | [], _ => rfl
  | c :: cs, hall => by
    show (tryAlts (c :: cs) <|> searchFrom cs) = none
    rw [tryAlts_none_of_idChars _ hall, optOrElse_none]
    exact searchFrom_none_of_idChars cs (fun d hd => hall d (List.mem_cons_of_mem c hd))

theorem pyStrip_url (p : String) (id : List Char) (hp : ∀ c ∈ p.data, pyWs c = false)
    (h : IsVid id) : pyStrip (p.data ++ id) = p.data ++ id := by
  apply pyStrip_noWs
  intro c hc
  rcases List.mem_append.mp hc with hc | hc
  · exact hp c hc
  · exact idChar_not_ws c (h.2 c hc)

theorem search_watch (id : List Char) (h : IsVid id) :
    searchFrom ("https://www.youtube.com/watch?v=".data ++ id) = some id := by
  have hsplit : "https://www.youtube.com/watch?v=".data ++ id
      = "https://www.".data ++ ("youtube.com/watch?".data ++ ('v' :: '=' :: id)) := rfl
  rw [hsplit, searchFrom_append_no_y _ _ (by decide)]
  apply searchFrom_of_tryAlts_some
  have hW : altWatch ("youtube.com/watch?".data ++ ('v' :: '=' :: id)) = some id := by
    unfold altWatch
    rw [matchLit_self]
    exact greedySearch_veq id h
  unfold tryAlts
  rw [hW, optOrElse_some]

theorem search_be (id : List Char) (h : IsVid id) :
    searchFrom ("https://youtu.be/".data ++ id) = some id := by
  have hsplit : "https://youtu.be/".data ++ id
      = "https://".data ++ ("youtu.be/".data ++ id) := rfl
  rw [hsplit, searchFrom_append_no_y _ _ (by decide)]
  apply searchFrom_of_tryAlts_some
  have hW : altWatch ("youtu.be/".data ++ id) = none := rfl
  have hB : altBe ("youtu.be/".data ++ id) = some id := by
    unfold altBe
    rw [matchLit_self]
    exact takeId11_of_isVid id h
  unfold tryAlts
  rw [hW, optOrElse_none, hB, optOrElse_some]

theorem search_embed (id : List Char) (h : IsVid id) :
    searchFrom ("https://www.youtube.com/embed/".data ++ id) = some id := by
  have hsplit : "https://www.youtube.com/embed/".data ++ id
      = "https://www.".data ++ ("youtube.com/embed/".data ++ id) := rfl
  rw [hsplit, searchFrom_append_no_y _ _ (by decide)]
  apply searchFrom_of_tryAlts_some
  have hW : altWatch ("youtube.com/embed/".data ++ id) = none := rfl
  have hB : altBe ("youtube.com/embed/".data ++ id) = none := rfl
  have hE : altEmbed ("youtube.com/embed/".data ++ id) = some id := by
    unfold altEmbed
    rw [matchLit_self]
    exact takeId11_of_isVid id h
  unfold tryAlts
  rw [hW, optOrElse_none, hB, optOrElse_none, hE, optOrElse_some]

theorem search_v (id : List Char) (h : IsVid id) :
    searchFrom ("https://www.youtube.com/v/".data ++ id) = some id := by
  have hsplit : "https://www.youtube.com/v/".data ++ id
      = "https://www.".data ++ ("youtube.com/v/".data ++ id) := rfl
  rw [hsplit, searchFrom_append_no_y _ _ (by decide)]
  apply searchFrom_of_tryAlts_some
  have hW : altWatch ("youtube.com/v/".data ++ id) = none := rfl
  have hB : altBe ("youtube.com/v/".data ++ id) = none := rfl
  have hE : altEmbed ("youtube.com/v/".data ++ id) = none := rfl
  have hV : altV ("youtube.com/v/".data ++ id) = some id := by
    unfold altV
    rw [matchLit_self]
    exact takeId11_of_isVid id h
  unfold tryAlts
  rw [hW, optOrElse_none, hB, optOrElse_none, hE, optOrElse_none, hV, optOrElse_some]

theorem search_shorts (id : List Char) (h : IsVid id) :
    searchFrom ("https://www.youtube.com/shorts/".data ++ id) = some id := by
  have hsplit : "https://www.youtube.com/shorts/".data ++ id
      = "https://www.".data ++ ("youtube.com/shorts/".data ++ id) := rfl
  rw [hsplit, searchFrom_append_no_y _ _ (by decide)]
  apply searchFrom_of_tryAlts_some
  have hW : altWatch ("youtube.com/shorts/".data ++ id) = none := rfl
  have hB : altBe ("youtube.com/shorts/".data ++ id) = none := rfl
  have hE : altEmbed ("youtube.com/shorts/".data ++ id) = none := rfl
  have hV : altV ("youtube.com/shorts/".data ++ id) = none := rfl
  have hS : altShorts ("youtube.com/shorts/".data ++ id) = some id := by
    unfold altShorts
    rw [matchLit_self]
    exact takeId11_of_isVid id h
  unfold tryAlts
  rw [hW, optOrElse_none, hB, optOrElse_none, hE, optOrElse_none, hV, optOrElse_none, hS]

theorem extract_of_url (p : String) (id : List Char) (h : IsVid id)
    (hp : ∀ c ∈ p.data, pyWs c = false)
    (hsearch : searchFrom (p.data ++ id) = some id) :
    _extract_video_id (p ++ String.mk id) = some (String.mk id) := by
  unfold _extract_video_id
  rw [show (p ++ String.mk id).data = p.data ++ id from rfl]
  rw [pyStrip_url p id hp h, hsearch]

/-- Claim C3: for every underlying id, the extractor returns the same
11-character identifier for all five URL shapes and the bare identifier;
it fails exactly when the search matches no URL pattern and the stripped
input is not an 11-character token of the id alphabet; and every
successful result is an 11-character token of the id alphabet. -/
theorem C3_identifier_extraction :
    (∀ id : List Char, IsVid id →
      (_extract_video_id ("https://www.youtube.com/watch?v=" ++ String.mk id) = some (String.mk id) ∧
       _extract_video_id ("https://youtu.be/" ++ String.mk id) = some (String.mk id) ∧
       _extract_video_id ("https://www.youtube.com/embed/" ++ String.mk id) = some (String.mk id) ∧
       _extract_video_id ("https://www.youtube.com/v/" ++ String.mk id) = some (String.mk id) ∧
       _extract_video_id ("https://www.youtube.com/shorts/" ++ String.mk id) = some (String.mk id) ∧
       _extract_video_id (String.mk id) = some (String.mk id))) ∧
    (∀ s : String, _extract_video_id s = none ↔
      (searchFrom (pyStrip s.data) = none ∧ ¬ IsVid (pyStrip s.data))) ∧
    (∀ (s r : String), _extract_video_id s = some r → IsVid r.data) := by
  refine ⟨?_, ?_, ?_⟩
  · intro id h
    refine ⟨?_, ?_, ?_, ?_, ?_, ?_⟩
    · exact extract_of_url _ id h (by decide) (search_watch id h)
    · exact extract_of_url _ id h (by decide) (search_be id h)
    · exact extract_of_url _ id h (by decide) (search_embed id h)
    · exact extract_of_url _ id h (by decide) (search_v id h)
    · exact extract_of_url _ id h (by decide) (search_shorts id h)
    · have hs : pyStrip ((String.mk id).data) = id := by
        rw [show (String.mk id).data = id from rfl]
        exact pyStrip_noWs id (fun c hc => idChar_not_ws c (h.2 c hc))
      have he : _extract_video_id (String.mk id) =
          (if id.length = 11 ∧ ∀ c ∈ id, idChar c = true then some (String.mk id) else none) := by
        unfold _extract_video_id
        rw [hs, searchFrom_none_of_idChars id h.2]
      rw [he, if_pos ⟨h.1, h.2⟩]
  · intro s
    cases hm : searchFrom (pyStrip s.data) with
    | some g =>
      have he : _extract_video_id s = some (String.mk g) := by
        unfold _extract_video_id
        rw [hm]
      rw [he]
      constructor
      · intro hh; exact Option.noConfusion hh
      · rintro ⟨h1, _⟩; exact Option.noConfusion h1
    | none =>
      have he : _extract_video_id s =
          (if (pyStrip s.data).length = 11 ∧ ∀ c ∈ pyStrip s.data, idChar c = true then
            some (String.mk (pyStrip s.data)) else none) := by
        unfold _extract_video_id
        rw [hm]
      by_cases hb : IsVid (pyStrip s.data)
      · rw [if_pos ⟨hb.1, hb.2⟩] at he
        rw [he]
        constructor
        · intro hh; exact Option.noConfusion hh
        · rintro ⟨_, hnb⟩; exact absurd hb hnb
      · rw [if_neg (fun hc => hb ⟨hc.1, hc.2⟩)] at he
        rw [he]
        exact ⟨fun _ => ⟨rfl, hb⟩, fun _ => rfl⟩
  · intro s r h
    cases hm : searchFrom (pyStrip s.data) with
    | some g =>
      have he : _extract_video_id s = some (String.mk g) := by
        unfold _extract_video_id
        rw [hm]
      rw [he] at h
      have hr : String.mk g = r := Option.some.inj h
      rw [← hr]
      exact searchFrom_isVid hm
    | none =>
      have he : _extract_video_id s =
          (if (pyStrip s.data).length = 11 ∧ ∀ c ∈ pyStrip s.data, idChar c = true then
            some (String.mk (pyStrip s.data)) else none) := by
        unfold _extract_video_id
        rw [hm]
      by_cases hb : (pyStrip s.data).length = 11 ∧ ∀ c ∈ pyStrip s.data, idChar c = true
      · rw [if_pos hb] at he
        rw [he] at h
        have hr : String.mk (pyStrip s.data) = r := Option.some.inj h
        rw [← hr]
        exact hb
      · rw [if_neg hb] at he
        rw [he] at h
        exact Option.noConfusion h

/-- Claim C3 witness: concrete instantiation at the identifier dQw4w9WgXcQ
through the short-link URL shape. -/
theorem C3_identifier_extraction_witness :
    IsVid ("dQw4w9WgXcQ".data) ∧
    _extract_video_id "https://youtu.be/dQw4w9WgXcQ" = some "dQw4w9WgXcQ" := by
  constructor
  · decide
  · exact (C3_identifier_extraction.1 "dQw4w9WgXcQ".data (by decide)).2.1

/-! ### Lemmas about the language scan of the service backend -/

theorem findFirstLang_cons_some {f : String → Option Transcript} {l : String} {t : Transcript}
    (ls : List String) (h : f l = some t) : findFirstLang f (l :: ls) = some (l, t) := by
  show (match f l with | some t => some (l, t) | none => findFirstLang f ls) = some (l, t)
  rw [h]

theorem findFirstLang_cons_none {f : String → Option Transcript} {l : String}
    (ls : List String) (h : f l = none) : findFirstLang f (l :: ls) = findFirstLang f ls := by
  show (match f l with | some t => some (l, t) | none => findFirstLang f ls) = findFirstLang f ls
  rw [h]

theorem findFirstLang_none {f : String → Option Transcript} :
    ∀ (ls : List String), (∀ x ∈ ls, f x = none) → findFirstLang f ls = none
  | [], _ => rfl
  | l :: ls, h => by
    rw [findFirstLang_cons_none ls (h l (List.mem_cons_self l ls))]
    exact findFirstLang_none ls (fun x hx => h x (List.mem_cons_of_mem l hx))

theorem findFirstLang_append_none {f : String → Option Transcript} :
    ∀ (pre rest : List String), (∀ x ∈ pre, f x = none) →
      findFirstLang f (pre ++ rest) = findFirstLang f rest
  | [], _, _ => rfl
  | l :: pre, rest, h => by
    rw [List.cons_append, findFirstLang_cons_none _ (h l (List.mem_cons_self l pre))]
    exact findFirstLang_append_none pre rest (fun x hx => h x (List.mem_cons_of_mem l hx))

theorem findFirstLang_sound {f : String → Option Transcript} :
    ∀ {ls : List String} {l : String} {t : Transcript},
      findFirstLang f ls = some (l, t) → l ∈ ls ∧ f l = some t := by
  intro ls
  induction ls with
  | nil => intro l t h; exact Option.noConfusion h
  | cons x ls ih =>
    intro l t h
    have h2 : (match f x with | some t2 => some (x, t2) | none => findFirstLang f ls) = some (l, t) := h
    cases hf : f x with
    | some t2 =>
      rw [hf] at h2
      have h3 : (x, t2) = (l, t) := Option.some.inj h2
      have hx : x = l := congrArg Prod.fst h3
      have ht : t2 = t := congrArg Prod.snd h3
      subst hx
      subst ht
      exact ⟨List.mem_cons_self x ls, hf⟩
    | none =>
      rw [hf] at h2
      obtain ⟨hl, hft⟩ := ih h2
      exact ⟨List.mem_cons_of_mem x hl, hft⟩

theorem api_eq_manual {tl : TranscriptList} {vid : String} {langs : List String}
    {l : String} {t : Transcript}
    (h : findFirstLang tl.find_manually_created_transcript langs = some (l, t)) :
    _get_transcript_via_api tl vid langs =
      .ok { entries := fetchEntries t, language := l, source := "manual" } := by
  unfold _get_transcript_via_api
  rw [h]

theorem api_eq_generated {tl : TranscriptList} {vid : String} {langs : List String}
    {l : String} {t : Transcript}
    (hm : findFirstLang tl.find_manually_created_transcript langs = none)
    (hg : findFirstLang tl.find_generated_transcript langs = some (l, t)) :
    _get_transcript_via_api tl vid langs =
      .ok { entries := fetchEntries t, language := l, source := "auto-generated" } := by
  unfold _get_transcript_via_api
  rw [hm, hg]

theorem api_eq_fallback {tl : TranscriptList} {vid : String} {langs : List String}
    {t : Transcript} {rest : List Transcript}
    (hm : findFirstLang tl.find_manually_created_transcript langs = none)
    (hg : findFirstLang tl.find_generated_transcript langs = none)
    (ha : tl.available = t :: rest) :
    _get_transcript_via_api tl vid langs =
      .ok { entries := fetchEntries t, language := t.language_code,
            source := if t.is_generated then "auto-generated" else "manual" } := by
  unfold _get_transcript_via_api
  rw [hm, hg, ha]

theorem api_eq_error {tl : TranscriptList} {vid : String} {langs : List String}
    (hm : findFirstLang tl.find_manually_created_transcript langs = none)
    (hg : findFirstLang tl.find_generated_transcript langs = none)
    (ha : tl.available = []) :
    ∃ msg, _get_transcript_via_api tl vid langs = .error msg := by
  refine ⟨"No transcript available for video " ++ vid ++
    ". Tried languages: " ++ String.intercalate ", " langs ++
    ". The video may not have captions enabled.", ?_⟩
  unfold _get_transcript_via_api
  rw [hm, hg, ha]

/-- Claim C1: the structured-service backend selects by a deterministic
nested-priority scan: the first requested language having a manual
transcript wins; only when no requested language has a manual transcript
does the first requested language having a generated transcript win; only
when neither exists does the first available transcript of any kind win;
with no available transcript the backend fails.  In particular a manual
transcript in the first preferred language beats a generated one there. -/
theorem C1_api_nested_priority :
    ∀ (tl : TranscriptList) (vid : String) (langs : List String),
      (∀ (pre : List String) (l : String) (post : List String) (t : Transcript),
        langs = pre ++ l :: post →
        (∀ x ∈ pre, tl.find_manually_created_transcript x = none) →
        tl.find_manually_created_transcript l = some t →
        _get_transcript_via_api tl vid langs =
          .ok { entries := fetchEntries t, language := l, source := "manual" }) ∧
      (∀ (pre : List String) (l : String) (post : List String) (t : Transcript),
        (∀ x ∈ langs, tl.find_manually_created_transcript x = none) →
        langs = pre ++ l :: post →
        (∀ x ∈ pre, tl.find_generated_transcript x = none) →
        tl.find_generated_transcript l = some t →
        _get_transcript_via_api tl vid langs =
          .ok { entries := fetchEntries t, language := l, source := "auto-generated" }) ∧
      ((∀ x ∈ langs, tl.find_manually_created_transcript x = none ∧
          tl.find_generated_transcript x = none) →
        (∀ (t : Transcript) (rest : List Transcript), tl.available = t :: rest →
          _get_transcript_via_api tl vid langs =
            .ok { entries := fetchEntries t, language := t.language_code,
                  source := if t.is_generated then "auto-generated" else "manual" }) ∧
        (tl.available = [] → ∃ msg, _get_transcript_via_api tl vid langs = .error msg)) ∧
      (∀ (l : String) (rest : List String) (t : Transcript),
        langs = l :: rest →
        tl.find_manually_created_transcript l = some t →
        (tl.find_generated_transcript l).isSome →
        _get_transcript_via_api tl vid langs =
          .ok { entries := fetchEntries t, language := l, source := "manual" }) := by
  intro tl vid langs
  refine ⟨?_, ?_, ?_, ?_⟩
  · intro pre l post t hsplit hpre hl
    subst hsplit
    apply api_eq_manual
    rw [findFirstLang_append_none pre _ hpre]
    exact findFirstLang_cons_some post hl
  · intro pre l post t hall hsplit hpre hl
    have hm : findFirstLang tl.find_manually_created_transcript langs = none :=
      findFirstLang_none langs hall
    subst hsplit
    apply api_eq_generated hm
    rw [findFirstLang_append_none pre _ hpre]
    exact findFirstLang_cons_some post hl
  · intro hall
    have hm : findFirstLang tl.find_manually_created_transcript langs = none :=
      findFirstLang_none langs (fun x hx => (hall x hx).1)
    have hg : findFirstLang tl.find_generated_transcript langs = none :=
      findFirstLang_none langs (fun x hx => (hall x hx).2)
    exact ⟨fun t rest ha => api_eq_fallback hm hg ha, fun ha => api_eq_error hm hg ha⟩
  · intro l rest t hsplit hl _
    subst hsplit
    apply api_eq_manual
    exact findFirstLang_cons_some rest hl

/-- Claim C1 witness: with a manual transcript only for en, the request
for ja then en selects the manual en transcript. -/
theorem C1_api_nested_priority_witness :
    _get_transcript_via_api tlSample "vid00000000" ["ja", "en"] =
      Except.ok { entries := [], language := "en", source := "manual" } := by
  have hja : tlSample.find_manually_created_transcript "ja" = none := by
    show (if ("ja" : String) = "en" then some tEn else none) = none
    rw [if_neg (by decide)]
  have hen : tlSample.find_manually_created_transcript "en" = some tEn := by
    show (if ("en" : String) = "en" then some tEn else none) = some tEn
    rw [if_pos rfl]
  exact (C1_api_nested_priority tlSample "vid00000000" ["ja", "en"]).1 ["ja"] "en" [] tEn rfl
    (by intro x hx; rw [List.mem_singleton.mp hx]; exact hja) hen

/-! ### Lemmas about the formatter arithmetic -/

theorem pyMod_nonneg (a : ℚ) : 0 ≤ pyMod a 60 := by
  unfold pyMod
  rw [sub_nonneg]
  have h : ((⌊a / 60⌋ : ℚ)) ≤ a / 60 := Int.floor_le (a / 60)
  calc (60 : ℚ) * (⌊a / 60⌋ : ℚ) ≤ 60 * (a / 60) := by
        apply mul_le_mul_of_nonneg_left h
        norm_num
    _ = a := by field_simp

theorem pyInt_eq_floor (q : ℚ) (h : 0 ≤ q) : pyInt q = ⌊q⌋ := by
  unfold pyInt
  rw [if_pos h]

theorem entryLine_eq_specLine (ts : Bool) (e : TranscriptEntry) :
    entryLine ts e = specLine ts e := by
  unfold entryLine specLine
  rw [pyInt_eq_floor _ (pyMod_nonneg e.start)]

theorem formatLines_eq (ts : Bool) : ∀ entries : List TranscriptEntry,
    formatLines ts entries =
      (entries.filter fun e => decide (¬ String.mk (pyStrip e.text.data) = "")).map (specLine ts)
  | [] => rfl
  | e :: rest => by
    have hstep : formatLines ts (e :: rest) =
        (if String.mk (pyStrip e.text.data) = "" then formatLines ts rest
         else entryLine ts e :: formatLines ts rest) := rfl
    by_cases h : String.mk (pyStrip e.text.data) = ""
    · rw [hstep, if_pos h, List.filter_cons_of_neg (by simp [h]), formatLines_eq ts rest]
    · rw [hstep, if_neg h, List.filter_cons_of_pos (by simp [h]), List.map_cons,
          formatLines_eq ts rest, entryLine_eq_specLine]

/-- Claim C4: the formatter drops entries whose trimmed text is empty,
emits the remaining trimmed texts in order joined by single newlines, and
with timecodes enabled prefixes each line with a bracketed marker whose
minutes are floor(start / 60) and whose seconds are floor(start mod 60),
both zero-padded to two digits; with start 125.4 the prefix reads 02:05. -/
theorem C4_formatter :
    (∀ (entries : List TranscriptEntry) (include_timestamps : Bool),
      _format_transcript_text entries include_timestamps =
        String.intercalate "\n"
          ((entries.filter fun e => decide (¬ String.mk (pyStrip e.text.data) = "")).map
            (specLine include_timestamps))) ∧
    _format_transcript_text [{ text := "hello", start := 125.4, duration := 3 }] true =
      "[02:05] hello" ∧
    _format_transcript_text [{ text := " ", start := 5, duration := 1 },
                             { text := "a", start := 0, duration := 1 }] false = "a" := by
  refine ⟨?_, ?_, ?_⟩
  · intro entries ts
    unfold _format_transcript_text
    rw [formatLines_eq]
  · have h1 : ⌊(125.4 : ℚ) / 60⌋ = 2 := by norm_num
    have h2 : pyMod (125.4 : ℚ) 60 = 27 / 5 := by
      unfold pyMod
      rw [h1]
      norm_num
    have h3 : pyInt (pyMod (125.4 : ℚ) 60) = 5 := by
      rw [h2]
      unfold pyInt
      rw [if_pos (by norm_num : (0 : ℚ) ≤ 27 / 5)]
      norm_num
    have h5 : entryLine true { text := "hello", start := 125.4, duration := 3 } = "[02:05] hello" := by
      show "[" ++ pad2Int ⌊(125.4 : ℚ) / 60⌋ ++ ":" ++ pad2Int (pyInt (pyMod (125.4 : ℚ) 60)) ++
          "] " ++ String.mk (pyStrip "hello".data) = "[02:05] hello"
      rw [h1, h3]
      decide
    have h4 : formatLines true [({ text := "hello", start := 125.4, duration := 3 } : TranscriptEntry)] =
        [entryLine true { text := "hello", start := 125.4, duration := 3 }] := by
      show (if String.mk (pyStrip ("hello" : String).data) = "" then ([] : List String)
            else [entryLine true { text := "hello", start := 125.4, duration := 3 }]) = _
      rw [if_neg (by decide)]
    show String.intercalate "\n"
        (formatLines true [{ text := "hello", start := 125.4, duration := 3 }]) = _
    rw [h4, h5]
    decide
  · decide

/-! ### Lemmas about the document size bound -/

theorem string_length_append (a b : String) : (a ++ b).length = a.length + b.length := by
  show (a.data ++ b.data).length = a.data.length + b.data.length
  exact List.length_append a.data b.data

/-- Claim C5: the builder applies a pure character-count bound: a document
longer than 200000 characters becomes its first 200000 characters followed
by the truncation marker, so its final length is 200000 plus the marker
length; a document of at most 200000 characters is returned unchanged. -/
theorem C5_truncation :
    (∀ (m : VideoMetadata) (t : String) (info : TranscriptResult) (vid : String),
      _build_markdown_output m t info vid = boundOutput (assembleOutput m t info vid)) ∧
    (∀ s : String,
      (MAX_TRANSCRIPT_CHARS < s.length →
        boundOutput s = String.mk (s.data.take MAX_TRANSCRIPT_CHARS) ++ TRUNCATION_MARKER ∧
        (boundOutput s).length = MAX_TRANSCRIPT_CHARS + TRUNCATION_MARKER.length) ∧
      (s.length ≤ MAX_TRANSCRIPT_CHARS → boundOutput s = s)) := by
  constructor
  · intro m t info vid
    rfl
  · intro s
    constructor
    · intro h
      have he : boundOutput s = String.mk (s.data.take MAX_TRANSCRIPT_CHARS) ++ TRUNCATION_MARKER := by
        unfold boundOutput
        rw [if_pos h]
      refine ⟨he, ?_⟩
      rw [he, string_length_append]
      have hlen : (String.mk (s.data.take MAX_TRANSCRIPT_CHARS)).length = MAX_TRANSCRIPT_CHARS := by
        show (s.data.take MAX_TRANSCRIPT_CHARS).length = MAX_TRANSCRIPT_CHARS
        rw [List.length_take]
        exact min_eq_left (Nat.le_of_lt h)
      rw [hlen]
    · intro h
      unfold boundOutput
      rw [if_neg (by omega)]

/-- Claim C5 witness: a 250000 character document is cut to 200000
characters plus the marker; a short document is unchanged. -/
theorem C5_truncation_witness :
    MAX_TRANSCRIPT_CHARS < (String.mk (List.replicate 250000 'a')).length ∧
    (boundOutput (String.mk (List.replicate 250000 'a'))).length =
      MAX_TRANSCRIPT_CHARS + TRUNCATION_MARKER.length ∧
    boundOutput "ok" = "ok" := by
  have hlen : (String.mk (List.replicate 250000 'a')).length = 250000 := by
    show (List.replicate 250000 'a').length = 250000
    rw [List.length_replicate]
  have hgt : MAX_TRANSCRIPT_CHARS < (String.mk (List.replicate 250000 'a')).length := by
    rw [hlen]
    norm_num [MAX_TRANSCRIPT_CHARS]
  refine ⟨hgt, ?_, ?_⟩
  · exact ((C5_truncation.2 (String.mk (List.replicate 250000 'a'))).1 hgt).2
  · exact (C5_truncation.2 "ok").2 (by decide)

/-- Claim C6, code bug: when the downloaded subtitle file is not valid
json, the json.load exception propagates before the cleanup loop runs, so
the temporary subtitle file is left on disk; generally for any attempt
with a nonempty subtitle file list whose parse fails, and concretely for
the attBadJson oracle. -/
theorem C6_tmpfile_leak :
    (∀ (a2 : YtdlpAttempt) (vid : String) (langs : List String) (f : String) (fs : List String),
      _get_transcript_via_ytdlp true
        { returncodeZero := true, subFiles := f :: fs, parsed := none } a2 vid langs =
        .parseError (f :: fs)) ∧
    _get_transcript_via_ytdlp true attBadJson attFail "vid00000000" ["en"] =
      .parseError ["/tmp/yt_vid00000000.en.json3"] := by
  constructor
  · intro a2 vid langs f fs
    rfl
  · rfl

/-- Claim C7, code bug: the command-line metadata backend absorbs every
failure internally and returns the placeholder record instead of raising,
so the except branch of the orchestrator never runs and the page-scrape
backend is never invoked; on failure the document is built with the
Unknown placeholders while the transcript section is untouched. -/
theorem C7_metadata_fallback_dead :
    (∀ (o : MetaOracle) (scrape : Except String VideoMetadata) (vid : String) (im : Bool),
      "page-scrape" ∉ (metadataPhase o scrape vid im).2) ∧
    (∀ (r z : Bool) (p : Option InfoDict) (vid : String),
      _get_metadata_via_ytdlp { installed := false, runOk := r, returncodeZero := z, parsed := p } vid
        = defaultMeta vid) ∧
    (∀ (z : Bool) (p : Option InfoDict) (vid : String),
      _get_metadata_via_ytdlp { installed := true, runOk := false, returncodeZero := z, parsed := p } vid
        = defaultMeta vid) ∧
    (∀ (p : Option InfoDict) (vid : String),
      _get_metadata_via_ytdlp { installed := true, runOk := true, returncodeZero := false, parsed := p } vid
        = defaultMeta vid) ∧
    (∀ vid : String,
      _get_metadata_via_ytdlp { installed := true, runOk := true, returncodeZero := true, parsed := none } vid
        = defaultMeta vid) ∧
    ((metadataPhase oracleFail (Except.ok richMeta) "vid00000000" true).1 = defaultMeta "vid00000000" ∧
     (metadataPhase oracleFail (Except.ok richMeta) "vid00000000" true).2 = ["yt-dlp-meta"] ∧
     richMeta.title = "Scraped Title") ∧
    (∀ (vid : String) (info : TranscriptResult),
      "title: \"Unknown\"" ∈ frontmatterFields (defaultMeta vid) info vid ∧
      "author: \"Unknown\"" ∈ frontmatterFields (defaultMeta vid) info vid) := by
  refine ⟨?_, ?_, ?_, ?_, ?_, ⟨rfl, rfl, rfl⟩, ?_⟩
  · intro o scrape vid im
    cases im
    · show "page-scrape" ∉ ([] : List String)
      exact List.not_mem_nil _
    · show "page-scrape" ∉ ["yt-dlp-meta"]
      decide
  · intro r z p vid; rfl
  · intro z p vid; rfl
  · intro p vid; rfl
  · intro vid; rfl
  · intro vid info
    constructor
    · exact List.mem_append_left _ (List.mem_cons_self _ _)
    · exact List.mem_append_left _ (List.mem_cons_of_mem _ (List.mem_cons_self _ _))

/-! ### Lemmas about the tags of the two caption backends -/

theorem ytdlpStep_ok {flag : Bool} {att : YtdlpAttempt} {res : TranscriptResult} {left : List String}
    (h : ytdlpStep flag att = some (.ok res left)) :
    res.language = "detected" ∧ res.source = (if flag then "manual" else "auto-generated") := by
  unfold ytdlpStep at h
  cases hz : att.returncodeZero
  · rw [hz] at h
    exact Option.noConfusion h
  · rw [hz] at h
    have h2 : (match att.subFiles with
               | [] => none
               | _ :: _ =>
                 match att.parsed with
                 | none => some (YtdlpOutcome.parseError att.subFiles)
                 | some data =>
                   some (YtdlpOutcome.ok
                     { entries := data.events.filterMap eventToEntry,
                       language := "detected",
                       source := if flag then "manual" else "auto-generated" } [])) =
        some (YtdlpOutcome.ok res left) := h
    cases hs : att.subFiles with
    | nil =>
      rw [hs] at h2
      exact Option.noConfusion h2
    | cons f fs =>
      rw [hs] at h2
      cases hp : att.parsed with
      | none =>
        rw [hp] at h2
        have h3 := Option.some.inj h2
        exact YtdlpOutcome.noConfusion h3
      | some data =>
        rw [hp] at h2
        have h3 := Option.some.inj h2
        injection h3 with h4 h5
        rw [← h4]
        exact ⟨rfl, rfl⟩

theorem ytdlp_tags {inst : Bool} {a1 a2 : YtdlpAttempt} {vid : String} {langs : List String}
    {res : TranscriptResult} {left : List String}
    (h : _get_transcript_via_ytdlp inst a1 a2 vid langs = .ok res left) :
    res.language = "detected" ∧ (res.source = "manual" ∨ res.source = "auto-generated") := by
  unfold _get_transcript_via_ytdlp at h
  cases hi : inst
  · rw [hi] at h
    exact YtdlpOutcome.noConfusion h
  · rw [hi] at h
    cases h1 : ytdlpStep true a1 with
    | some out =>
      rw [h1] at h
      have h2 : out = .ok res left := h
      rw [h2] at h1
      obtain ⟨hl, hsrc⟩ := ytdlpStep_ok h1
      refine ⟨hl, Or.inl ?_⟩
      rw [hsrc]
      rfl
    | none =>
      rw [h1] at h
      cases h2 : ytdlpStep false a2 with
      | some out =>
        rw [h2] at h
        have h3 : out = .ok res left := h
        rw [h3] at h2
        obtain ⟨hl, hsrc⟩ := ytdlpStep_ok h2
        refine ⟨hl, Or.inr ?_⟩
        rw [hsrc]
        rfl
      | none =>
        rw [h2] at h
        exact YtdlpOutcome.noConfusion h

theorem api_tags {tl : TranscriptList} {vid : String} {langs : List String} {r : TranscriptResult}
    (h : _get_transcript_via_api tl vid langs = .ok r) :
    ∃ t : Transcript, r.entries = fetchEntries t ∧
      ((r.language ∈ langs ∧ tl.find_manually_created_transcript r.language = some t ∧
          r.source = "manual") ∨
       (r.language ∈ langs ∧ tl.find_generated_transcript r.language = some t ∧
          r.source = "auto-generated") ∨
       (tl.available.head? = some t ∧ r.language = t.language_code ∧
          r.source = (if t.is_generated then "auto-generated" else "manual"))) := by
  cases hm : findFirstLang tl.find_manually_created_transcript langs with
  | some lt =>
    obtain ⟨l, t⟩ := lt
    rw [api_eq_manual hm] at h
    have hr : ({ entries := fetchEntries t, language := l, source := "manual" } : TranscriptResult) = r :=
      Except.ok.inj h
    obtain ⟨hl, hf⟩ := findFirstLang_sound hm
    rw [← hr]
    exact ⟨t, rfl, Or.inl ⟨hl, hf, rfl⟩⟩
  | none =>
    cases hg : findFirstLang tl.find_generated_transcript langs with
    | some lt =>
      obtain ⟨l, t⟩ := lt
      rw [api_eq_generated hm hg] at h
      have hr : ({ entries := fetchEntries t, language := l, source := "auto-generated" } : TranscriptResult) = r :=
        Except.ok.inj h
      obtain ⟨hl, hf⟩ := findFirstLang_sound hg
      rw [← hr]
      exact ⟨t, rfl, Or.inr (Or.inl ⟨hl, hf, rfl⟩)⟩
    | none =>
      cases ha : tl.available with
      | nil =>
        obtain ⟨msg, he⟩ := api_eq_error hm hg ha
        rw [he] at h
        exact Except.noConfusion h
      | cons t rest =>
        rw [api_eq_fallback hm hg ha] at h
        have hr : ({ entries := fetchEntries t, language := t.language_code,
                     source := if t.is_generated then "auto-generated" else "manual" } : TranscriptResult) = r :=
          Except.ok.inj h
        rw [← hr]
        refine ⟨t, rfl, Or.inr (Or.inr ⟨?_, rfl, rfl⟩)⟩
        rfl

/-- Claim C8 counterexample: a successful command-line acquisition whose
request was for en is tagged with the constant language detected, which
is not a language of the request. -/
theorem C8_detected_language_counterexample :
    ∃ (res : TranscriptResult) (left : List String),
      _get_transcript_via_ytdlp true attFail attAutoOk "vid00000000" ["en"] = .ok res left ∧
      res.language = "detected" ∧ res.language ∉ ["en"] := by
  refine ⟨_, _, rfl, rfl, ?_⟩
  decide

/-- Claim C8 as amended: a successful structured-service acquisition is
tagged with the requested language and generation source that satisfied
it (or the first available transcript with its own language code); a
successful command-line acquisition is tagged with a correct generation
source but with the constant language tag detected; the builder emits
both tags verbatim in the frontmatter. -/
theorem C8_tagging_amended :
    (∀ (tl : TranscriptList) (vid : String) (langs : List String) (r : TranscriptResult),
      _get_transcript_via_api tl vid langs = .ok r →
      ∃ t : Transcript, r.entries = fetchEntries t ∧
        ((r.language ∈ langs ∧ tl.find_manually_created_transcript r.language = some t ∧
            r.source = "manual") ∨
         (r.language ∈ langs ∧ tl.find_generated_transcript r.language = some t ∧
            r.source = "auto-generated") ∨
         (tl.available.head? = some t ∧ r.language = t.language_code ∧
            r.source = (if t.is_generated then "auto-generated" else "manual")))) ∧
    (∀ (inst : Bool) (a1 a2 : YtdlpAttempt) (vid : String) (langs : List String)
        (res : TranscriptResult) (left : List String),
      _get_transcript_via_ytdlp inst a1 a2 vid langs = .ok res left →
      res.language = "detected" ∧ (res.source = "manual" ∨ res.source = "auto-generated")) ∧
    (∀ (m : VideoMetadata) (info : TranscriptResult) (vid : String),
      ("transcript_language: " ++ info.language) ∈ frontmatterFields m info vid ∧
      ("transcript_source: " ++ info.source) ∈ frontmatterFields m info vid) := by
  refine ⟨?_, ?_, ?_⟩
  · intro tl vid langs r h
    exact api_tags h
  · intro inst a1 a2 vid langs res left h
    exact ytdlp_tags h
  · intro m info vid
    constructor
    · exact List.mem_append_left _ (List.mem_cons_of_mem _ (List.mem_cons_of_mem _
        (List.mem_cons_of_mem _ (List.mem_cons_of_mem _ (List.mem_cons_self _ _)))))
    · exact List.mem_append_left _ (List.mem_cons_of_mem _ (List.mem_cons_of_mem _
        (List.mem_cons_of_mem _ (List.mem_cons_of_mem _ (List.mem_cons_of_mem _
          (List.mem_cons_self _ _))))))

/-- Claim C8 witness: the amended tagging statement instantiated at the
concrete auto-generated command-line run. -/
theorem C8_tagging_amended_witness :
    ∃ (res : TranscriptResult) (left : List String),
      _get_transcript_via_ytdlp true attFail attAutoOk "vid00000000" ["en"] = .ok res left ∧
      res.language = "detected" ∧ (res.source = "manual" ∨ res.source = "auto-generated") := by
  refine ⟨_, _, rfl, ?_⟩
  exact C8_tagging_amended.2.1 true attFail attAutoOk "vid00000000" ["en"] _ _ rfl

/-- Claim C9 counterexample: an upload_date of eight characters that are
not all digits is reformatted with inserted dashes rather than passed
through verbatim, so the reformat condition is length 8, not 8 digits. -/
theorem C9_upload_date_counterexample :
    ("abcdefgh".data.all Char.isDigit = false) ∧
    uploadDateValue "abcdefgh" = "abcd-ef-gh" ∧
    ("upload_date: " ++ uploadDateValue "abcdefgh") ≠ "upload_date: abcdefgh" ∧
    ("upload_date: abcd-ef-gh") ∈ frontmatterFields meta9 infoSample "vid00000000" ∧
    ("upload_date: abcdefgh") ∉ frontmatterFields meta9 infoSample "vid00000000" := by
  refine ⟨rfl, by decide, by decide, by decide, by decide⟩

/-- Claim C9 as amended: with a truthy upload_date the builder emits the
field with the value reformatted with dashes exactly when the raw value
has length 8 (whether or not its characters are digits), and verbatim
otherwise. -/
theorem C9_upload_date_amended :
    ∀ (m : VideoMetadata) (info : TranscriptResult) (vid : String),
      m.upload_date ≠ "" →
      (("upload_date: " ++ uploadDateValue m.upload_date) ∈ frontmatterFields m info vid ∧
       (m.upload_date.length = 8 →
         uploadDateValue m.upload_date =
           String.mk (m.upload_date.data.take 4) ++ "-" ++
           String.mk ((m.upload_date.data.drop 4).take 2) ++ "-" ++
           String.mk (m.upload_date.data.drop 6)) ∧
       (m.upload_date.length ≠ 8 → uploadDateValue m.upload_date = m.upload_date)) := by
  intro m info vid hne
  refine ⟨?_, ?_, ?_⟩
  · unfold frontmatterFields
    apply List.mem_append_left
    apply List.mem_append_right
    rw [if_pos hne]
    exact List.mem_cons_self _ _
  · intro h8
    unfold uploadDateValue
    rw [if_pos h8]
  · intro h8
    unfold uploadDateValue
    rw [if_neg h8]

/-- Claim C9 witness: the amended statement instantiated at meta9, whose
upload_date is the eight character value abcdefgh. -/
theorem C9_upload_date_amended_witness :
    ("upload_date: " ++ uploadDateValue "abcdefgh")
      ∈ frontmatterFields meta9 infoSample "vid00000000" ∧
    uploadDateValue "abcdefgh" =
      String.mk ("abcdefgh".data.take 4) ++ "-" ++
      String.mk (("abcdefgh".data.drop 4).take 2) ++ "-" ++
      String.mk ("abcdefgh".data.drop 6) := by
  have h := C9_upload_date_amended meta9 infoSample "vid00000000" (by decide)
  exact ⟨h.1, h.2.1 (by decide)⟩

/-! ### Lemmas comparing frontmatter field shapes -/

theorem take2_ne {s t : String} (c1 c2 d1 d2 : Char) (h : s = t)
    (hs : s.data.take 2 = [c1, c2]) (ht : t.data.take 2 = [d1, d2])
    (hne : ¬ (c1 = d1 ∧ c2 = d2)) : False := by
  rw [h] at hs
  have h2 : ([c1, c2] : List Char) = [d1, d2] := hs.symm.trans ht
  injection h2 with e1 e2
  injection e2 with e2 _
  exact hne ⟨e1, e2⟩

/-- Claim C10: the builder emits the upload_date field exactly when the
upload_date value is truthy (nonempty), and the duration field exactly
when the duration value is truthy (present and nonzero); an empty
upload_date or a zero duration therefore produces no such field. -/
theorem C10_optional_fields :
    ∀ (m : VideoMetadata) (info : TranscriptResult) (vid : String),
      ((∃ f ∈ frontmatterFields m info vid, ∃ v : String, f = "upload_date: " ++ v) ↔
        m.upload_date ≠ "") ∧
      ((∃ f ∈ frontmatterFields m info vid, ∃ v : String, f = "duration: " ++ v) ↔
        (∃ d : ℤ, m.duration_seconds = some d ∧ d ≠ 0)) := by
  intro m info vid
  constructor
  · constructor
    · rintro ⟨f, hf, v, hv⟩
      unfold frontmatterFields at hf
      rcases List.mem_append.mp hf with h16 | hdur
      · rcases List.mem_append.mp h16 with h6 | hup
        · exfalso
          simp only [List.mem_cons, List.not_mem_nil, or_false] at h6
          rcases h6 with rfl | rfl | rfl | rfl | rfl | rfl
          · exact take2_ne 't' 'i' 'u' 'p' hv rfl rfl (by decide)
          · exact take2_ne 'a' 'u' 'u' 'p' hv rfl rfl (by decide)
          · exact take2_ne 'u' 'r' 'u' 'p' hv rfl rfl (by decide)
          · exact take2_ne 'v' 'i' 'u' 'p' hv rfl rfl (by decide)
          · exact take2_ne 't' 'r' 'u' 'p' hv rfl rfl (by decide)
          · exact take2_ne 't' 'r' 'u' 'p' hv rfl rfl (by decide)
        · by_cases hne : m.upload_date ≠ ""
          · exact hne
          · rw [if_neg hne] at hup
            exact absurd hup (List.not_mem_nil f)
      · exfalso
        cases hds : m.duration_seconds with
        | none =>
          rw [hds] at hdur
          exact absurd hdur (List.not_mem_nil f)
        | some dsec =>
          rw [hds] at hdur
          have hdur2 : f ∈ (if dsec ≠ 0 then ["duration: " ++ durationValue dsec] else []) := hdur
          by_cases hz : dsec ≠ 0
          · rw [if_pos hz] at hdur2
            rw [List.mem_singleton] at hdur2
            subst hdur2
            exact take2_ne 'd' 'u' 'u' 'p' hv rfl rfl (by decide)
          · rw [if_neg hz] at hdur2
            exact absurd hdur2 (List.not_mem_nil f)
    · intro hne
      refine ⟨"upload_date: " ++ uploadDateValue m.upload_date, ?_,
        uploadDateValue m.upload_date, rfl⟩
      unfold frontmatterFields
      apply List.mem_append_left
      apply List.mem_append_right
      rw [if_pos hne]
      exact List.mem_cons_self _ _
  · constructor
    · rintro ⟨f, hf, v, hv⟩
      unfold frontmatterFields at hf
      rcases List.mem_append.mp hf with h16 | hdur
      · rcases List.mem_append.mp h16 with h6 | hup
        · exfalso
          simp only [List.mem_cons, List.not_mem_nil, or_false] at h6
          rcases h6 with rfl | rfl | rfl | rfl | rfl | rfl
          · exact take2_ne 't' 'i' 'd' 'u' hv rfl rfl (by decide)
          · exact take2_ne 'a' 'u' 'd' 'u' hv rfl rfl (by decide)
          · exact take2_ne 'u' 'r' 'd' 'u' hv rfl rfl (by decide)
          · exact take2_ne 'v' 'i' 'd' 'u' hv rfl rfl (by decide)
          · exact take2_ne 't' 'r' 'd' 'u' hv rfl rfl (by decide)
          · exact take2_ne 't' 'r' 'd' 'u' hv rfl rfl (by decide)
        · exfalso
          by_cases hne : m.upload_date ≠ ""
          · rw [if_pos hne] at hup
            rw [List.mem_singleton] at hup
            subst hup
            exact take2_ne 'u' 'p' 'd' 'u' hv rfl rfl (by decide)
          · rw [if_neg hne] at hup
            exact absurd hup (List.not_mem_nil f)
      · cases hds : m.duration_seconds with
        | none =>
          rw [hds] at hdur
          exact absurd hdur (List.not_mem_nil f)
        | some dsec =>
          rw [hds] at hdur
          have hdur2 : f ∈ (if dsec ≠ 0 then ["duration: " ++ durationValue dsec] else []) := hdur
          by_cases hz : dsec ≠ 0
          · exact ⟨dsec, rfl, hz⟩
          · rw [if_neg hz] at hdur2
            exact absurd hdur2 (List.not_mem_nil f)
    · rintro ⟨d, hd, hz⟩
      refine ⟨"duration: " ++ durationValue d, ?_, durationValue d, rfl⟩
      unfold frontmatterFields
      apply List.mem_append_right
      show "duration: " ++ durationValue d ∈
        (match m.duration_seconds with
         | some dsec => if dsec ≠ 0 then ["duration: " ++ durationValue dsec] else []
         | none => [])
      rw [hd]
      show "duration: " ++ durationValue d ∈
        (if d ≠ 0 then ["duration: " ++ durationValue d] else [])
      rw [if_pos hz]
      exact List.mem_cons_self _ _

/-! ### Lemmas about the first characters of the two output forms -/

theorem data_head_append (a b : String) (c : Char) (h : a.data.head? = some c) :
    (a ++ b).data.head? = some c := by
  have hd : (a ++ b).data = a.data ++ b.data := rfl
  rw [hd]
  cases ha : a.data with
  | nil =>
    rw [ha] at h
    exact Option.noConfusion h
  | cons d l =>
    rw [ha] at h
    rw [List.cons_append]
    exact h

theorem boundOutput_head (s : String) (c : Char) (h : s.data.head? = some c) :
    (boundOutput s).data.head? = some c := by
  unfold boundOutput
  by_cases hlen : MAX_TRANSCRIPT_CHARS < s.length
  · rw [if_pos hlen]
    cases ha : s.data with
    | nil =>
      rw [ha] at h
      exact Option.noConfusion h
    | cons d l =>
      rw [ha] at h
      apply data_head_append
      show ((d :: l).take MAX_TRANSCRIPT_CHARS).head? = some c
      rw [show MAX_TRANSCRIPT_CHARS = 199999 + 1 from rfl, List.take_succ_cons]
      exact h
  · rw [if_neg hlen]
    exact h

theorem assembleOutput_head (m : VideoMetadata) (t : String) (info : TranscriptResult)
    (vid : String) : (assembleOutput m t info vid).data.head? = some '-' := by
  unfold assembleOutput
  apply data_head_append
  apply data_head_append
  rfl

theorem errorOutput_head (vid : String) (errs : List String) :
    (errorOutput vid errs).data.head? = some 'E' := by
  unfold errorOutput
  apply data_head_append
  rfl

theorem build_head (m : VideoMetadata) (t : String) (info : TranscriptResult) (vid : String) :
    (_build_markdown_output m t info vid).data.head? = some '-' := by
  unfold _build_markdown_output
  exact boundOutput_head _ _ (assembleOutput_head m t info vid)

/-- Claim C2: the orchestrator invokes the structured-service backend
first and the command-line backend only when the first failed; the output
is the plain-text error form exactly when both failed, carrying the video
id and one diagnostic line per attempted backend (two for two), with no
transcript content; a successful backend instead yields the markdown
form, whose first character differs from that of the error form. -/
theorem C2_orchestrator :
    ∀ (api yt : Except String TranscriptResult) (mo : MetaOracle)
      (scrape : Except String VideoMetadata) (vid : String) (ts im : Bool),
      (∀ r, api = .ok r →
        youtube_get_transcript api yt mo scrape vid ts im =
          (_build_markdown_output (metadataPhase mo scrape vid im).1
            (_format_transcript_text r.entries ts) r vid,
           ["youtube-transcript-api"], (metadataPhase mo scrape vid im).2)) ∧
      (∀ e r, api = .error e → yt = .ok r →
        youtube_get_transcript api yt mo scrape vid ts im =
          (_build_markdown_output (metadataPhase mo scrape vid im).1
            (_format_transcript_text r.entries ts) r vid,
           ["youtube-transcript-api", "yt-dlp"], (metadataPhase mo scrape vid im).2)) ∧
      (∀ e1 e2, api = .error e1 → yt = .error e2 →
        youtube_get_transcript api yt mo scrape vid ts im =
          (errorOutput vid ["youtube-transcript-api: " ++ e1, "yt-dlp: " ++ e2],
           ["youtube-transcript-api", "yt-dlp"], []) ∧
        (["youtube-transcript-api: " ++ e1, "yt-dlp: " ++ e2] : List String).length =
          (["youtube-transcript-api", "yt-dlp"] : List String).length) ∧
      ((errorOutput vid ["youtube-transcript-api: x", "yt-dlp: y"]).data.head? = some 'E') ∧
      (∀ (m : VideoMetadata) (t : String) (info : TranscriptResult),
        (_build_markdown_output m t info vid).data.head? = some '-') := by
  intro api yt mo scrape vid ts im
  refine ⟨?_, ?_, ?_, errorOutput_head vid _, fun m t info => build_head m t info vid⟩
  · rintro r rfl
    rfl
  · rintro e r rfl rfl
    rfl
  · rintro e1 e2 rfl rfl
    exact ⟨rfl, rfl⟩

/-- Claim C2 witness: a concrete double failure yields the error form
carrying the two diagnostics, with both backends attempted. -/
theorem C2_orchestrator_witness :
    youtube_get_transcript (.error "boom") (.error "bam") oracleFail (.error "no")
        "vid00000000" false false =
      (errorOutput "vid00000000" ["youtube-transcript-api: boom", "yt-dlp: bam"],
       ["youtube-transcript-api", "yt-dlp"], []) := by
  exact ((C2_orchestrator (.error "boom") (.error "bam") oracleFail (.error "no")
    "vid00000000" false false).2.2.1 "boom" "bam" rfl rfl).1

end YtMcp
